import Mathlib

/-!
Verification of the NCUA data-processor schema-inference and bulk-load engine.

The development shallowly embeds the relevant parts of the source:
* the column type catalogue built from description files and its
  post-processing (create_ncua_tables.py: load_column_type_definitions,
  its helper that reads one description file, and get_sql_type_for_column),
* the per-column SQL type resolution of the schema generator
  (processor.py: the private schema generation method of DataProcessor),
* the duplicate-column-name suffixing,
* the existing-row-count pre-check and the chunked, retried bulk insert
  (processor.py lines 281-322 and database.py: insert_data).

Python strings are modelled as lists of Unicode code points (List Nat) where
character-level reasoning is needed (upper/lower casing, separator swapping,
substring tests), and as Lean String where only rendering matters.
-/

namespace Ncua

/-! ## Character / code-point helpers (Python str methods) -/

/-- Code points of a Lean string literal, used to write concrete Python
strings in the model. -/
def codes (s : String) : List Nat :=
  s.data.map Char.toNat

/-- Python str.upper restricted to ASCII, on one code point. -/
def upCode (c : Nat) : Nat :=
  if 97 ≤ c ∧ c ≤ 122 then c - 32 else c

/-- Python str.lower restricted to ASCII, on one code point. -/
def lowCode (c : Nat) : Nat :=
  if 65 ≤ c ∧ c ≤ 90 then c + 32 else c

/-- Python str.upper on a whole string. -/
def upStr (l : List Nat) : List Nat :=
  l.map upCode

/-- Python str.lower on a whole string. -/
def lowStr (l : List Nat) : List Nat :=
  l.map lowCode

/-- Python str.replace of an underscore (code 95) by a hyphen (code 45). -/
def swapUS (l : List Nat) : List Nat :=
  l.map (fun c => if c = 95 then 45 else c)

/-- Python str.replace of a hyphen (code 45) by an underscore (code 95). -/
def swapSU (l : List Nat) : List Nat :=
  l.map (fun c => if c = 45 then 95 else c)

/-- Decides whether one list is an initial segment of another; helper for the
substring test below. -/
def leadsList {α : Type} [DecidableEq α] : List α → List α → Bool
  | [], _ => true
  | _ :: _, [] => false
  | a :: as, b :: bs => a = b && leadsList as bs

/-- Python substring containment (the in operator on str). -/
def hasSub {α : Type} [DecidableEq α] (needle : List α) : List α → Bool
  | [] => needle.isEmpty
  | c :: rest => leadsList needle (c :: rest) || hasSub needle rest

/-- Python whitespace predicate used by str.strip with no argument. -/
def wsCode (c : Nat) : Bool :=
  c = 32 || c = 9 || c = 10 || c = 13 || c = 11 || c = 12

/-- Python str.strip with an arbitrary character class: drop matching
characters from both ends. -/
def pyStripBy (p : Nat → Bool) (l : List Nat) : List Nat :=
  ((l.dropWhile p).reverse.dropWhile p).reverse

/-! ## Type catalogue (create_ncua_tables.py)

The catalogue maps upper-cased field names to declared type strings.  Python
dict assignment is modelled by consing the new binding in front and looking
up the first match, which gives the same lookup semantics as overwriting. -/

/-- Catalogue: association list from field-name code points to declared-type
code points; the first binding for a key is the current one. -/
abbrev Catalog : Type := List (List Nat × List Nat)

/-- Python dict lookup: first (most recent) binding wins. -/
def clookup (k : List Nat) : Catalog → Option (List Nat)
  | [] => none
  | (k2, v) :: m => if k = k2 then some v else clookup k m

/-- Python dict assignment: shadow any previous binding for the key. -/
def cinsert (k : List Nat) (v : List Nat) (m : Catalog) : Catalog :=
  (k, v) :: m

/-- Field cleaning applied to each CSV cell of a description file:
row cell .strip().strip(quote). -/
def parseField (r : List Nat) : List Nat :=
  pyStripBy (fun c => c = 34) (pyStripBy wsCode r)

/-- One iteration of the row loop in the description-file loader
(create_ncua_tables.py lines 122-136): rows with at least three cells store
the upper-cased field name, and additionally the underscore/hyphen-swapped
alias when the name contains an underscore, else the hyphen/underscore-swapped
alias when it contains a hyphen. -/
def loadRow (m : Catalog) : List (List Nat) → Catalog
  | n :: t :: _ :: _ =>
    let name := parseField n
    let ty := parseField t
    let m1 := cinsert (upStr name) ty m
    if 95 ∈ name then cinsert (upStr (swapUS name)) ty m1
    else if 45 ∈ name then cinsert (upStr (swapSU name)) ty m1
    else m1
  | _ => m

/-- Loading a description file: fold the row loop over the parsed CSV rows
(header already skipped). -/
def loadFileRows (rows : List (List (List Nat))) (m : Catalog) : Catalog :=
  rows.foldl loadRow m

/-- A description row whose field name does not mix the underscore and hyphen
separators (rows too short to be loaded count as unmixed). -/
def rowNoMix : List (List Nat) → Bool
  | n :: _ :: _ :: _ => !(decide (95 ∈ parseField n ∧ 45 ∈ parseField n))
  | _ => true

/-- The alias invariant of the catalogue: a hyphen-free key and its
hyphen-swapped form are bound to the same declared type (possibly both
absent). -/
def AliasInv (m : Catalog) : Prop :=
  ∀ k : List Nat, 45 ∉ k → clookup k m = clookup (swapUS k) m

/-- Post-processing at the end of load_column_type_definitions
(create_ncua_tables.py lines 90-95): only when CU_NUMBER is present and its
declared type lower-cases to int, the three spellings are all set to int. -/
def postProcessColumnTypes (m : Catalog) : Catalog :=
  match clookup (codes "CU_NUMBER") m with
  | some t =>
    if lowStr t = codes "int" then
      cinsert (codes "CUNUMBER") (codes "int")
        (cinsert (codes "CU-NUMBER") (codes "int")
          (cinsert (codes "CU_NUMBER") (codes "int") m))
    else m
  | none => m

/-! ## SQL type selection per column (create_ncua_tables.py) -/

/-- Pandas dtype classes, as distinguished by the source type tests. -/
inductive PDtype : Type
  | int64
  | float64
  | datetime
  | object
deriving DecidableEq

/-- High-risk keyword test of get_sql_type_for_column: any of phone, fax,
phonenumber occurring in the lower-cased column name. -/
def keywordHit (colLower : List Nat) : Bool :=
  hasSub (codes "phone") colLower ||
  hasSub (codes "fax") colLower ||
  hasSub (codes "phonenumber") colLower

/-- Mapping of NCUA declared types to PostgreSQL types
(create_ncua_tables.py lines 166-185); nt is the lower-cased declared type. -/
def mapNcuaType (nt : List Nat) : String :=
  if nt = codes "int" then "INTEGER"
  else if nt = codes "smallint" then "SMALLINT"
  else if nt = codes "bigint" then "BIGINT"
  else if nt = codes "varchar" then "TEXT"
  else if nt = codes "char" then "TEXT"
  else if nt = codes "date" ∨ nt = codes "smalldatetime" then "TIMESTAMP"
  else if nt = codes "decimal" ∨ nt = codes "float" then "NUMERIC"
  else "TEXT"

/-- get_sql_type_for_column (create_ncua_tables.py lines 143-195): critical
join fields first, then the phone/fax keyword rule, then the catalogue lookup
under the upper-cased stripped name, then the pandas-dtype fallback. -/
def get_sql_type_for_column (defs : Catalog) (name : List Nat) (dtype : PDtype) : String :=
  let colLower := lowStr name
  if colLower = codes "cu_number" then "INTEGER"
  else if colLower = codes "join_number" then "INTEGER"
  else if colLower = codes "cycle_date" then "TIMESTAMP"
  else if keywordHit colLower then "TEXT"
  else
    let key := pyStripBy wsCode (upStr name)
    match clookup key defs with
    | some t => mapNcuaType (lowStr t)
    | none =>
      match dtype with
      | PDtype.int64 => "INTEGER"
      | PDtype.float64 => "NUMERIC"
      | PDtype.datetime => "TIMESTAMP"
      | PDtype.object => "TEXT"

/-- Column typing inside create_table_from_dataframe (lines 463-474): the
keyword rule is checked again before delegating to get_sql_type_for_column. -/
def createTableColType (defs : Catalog) (name : List Nat) (dtype : PDtype) : String :=
  if keywordHit (lowStr name) then "TEXT"
  else get_sql_type_for_column defs name dtype

/-! ## Schema generation (processor.py, DataProcessor)

The schema generator receives a pandas DataFrame; a column is modelled by its
raw name, its pandas dtype class, and its observed values.  Values only ever
flow into the type decision for integer columns, as a list of optional
integers (none models a null/NaN cell). -/

/-- One DataFrame column as seen by the schema generator. -/
structure PColumn : Type where
  name : String
  dtype : PDtype
  vals : List (Option Int)
deriving DecidableEq

/-- A parsed extract: the ordered columns of the DataFrame. -/
structure DataFrame : Type where
  cols : List PColumn
deriving DecidableEq

/-- Python lowercase on one character, ASCII range, for Lean String names. -/
def lowerChar (c : Char) : Char :=
  if 65 ≤ c.toNat ∧ c.toNat ≤ 90 then Char.ofNat (c.toNat + 32) else c

/-- Python str.strip on a Lean String (whitespace both ends). -/
def stripStr (s : String) : String :=
  String.mk (((s.data.dropWhile (fun c => wsCode c.toNat)).reverse.dropWhile
    (fun c => wsCode c.toNat)).reverse)

/-- Column-name cleaning used throughout processor.py:
col.strip().lower().replace(space, underscore).replace(hyphen, underscore). -/
def cleanCol (s : String) : String :=
  String.mk (((stripStr s).data.map lowerChar).map
    (fun c => if c = ' ' then '_' else if c = '-' then '_' else c))

/-- Maximum of a list of integers, modelling pandas max on the non-null
values of a column; none on the empty list. -/
def listMaxI : List Int → Option Int
  | [] => none
  | x :: xs =>
    match listMaxI xs with
    | none => some x
    | some m => some (max x m)

/-- Minimum of a list of integers, modelling pandas min on the non-null
values of a column; none on the empty list. -/
def listMinI : List Int → Option Int
  | [] => none
  | x :: xs =>
    match listMinI xs with
    | none => some x
    | some m => some (min x m)

/-- Integer-column type decision of the schema generator (processor.py lines
393-416), given the materialized column values: drop nulls; with no non-null
values default to INTEGER; otherwise compare min/max against the signed
32-bit range and widen to NUMERIC outside it.  The wildcard branch models the
defensive isna check on the computed max/min. -/
def intSqlTypeCore (vals : List (Option Int)) : String :=
  let nonNull := vals.filterMap id
  if 0 < nonNull.length then
    match listMaxI nonNull, listMinI nonNull with
    | some maxVal, some minVal =>
      if 2147483647 < maxVal ∨ minVal < -2147483648 then "NUMERIC" else "INTEGER"
    | _, _ => "INTEGER"
  else "INTEGER"

/-- The try/except around the integer-column value check: the whole value
computation either yields the column values or raises; a raised error is
caught and answered with NUMERIC to be safe. -/
def intSqlType : Except String (List (Option Int)) → String
  | Except.ok vals => intSqlTypeCore vals
  | Except.error _ => "NUMERIC"

/-- Table names known to hold values beyond integer range
(processor.py line 348). -/
def tablesWithLargeNumbers : List String :=
  ["fs220l", "fs220d", "fs220e", "fs220f"]

/-- Substring containment on Lean strings (Python in operator). -/
def strHasSub (needle hay : String) : Bool :=
  hasSub needle.data hay.data

/-- Lowercase a Lean string (Python str.lower, ASCII range). -/
def lowerStr (s : String) : String :=
  String.mk (s.data.map lowerChar)

/-- Large-magnitude table flag (processor.py line 349): any known substring
occurs in the lower-cased table name. -/
def hasLargeNumbers (tableName : String) : Bool :=
  tablesWithLargeNumbers.any (fun t => strHasSub t (lowerStr tableName))

/-- Per-column SQL type of the schema generator (processor.py lines 381-430).
For large-magnitude tables every numeric column becomes NUMERIC; otherwise
integer columns go through the min/max check, float columns become NUMERIC,
datetime columns TIMESTAMP, and everything else TEXT (the source computes a
maximum text length but emits TEXT on both sides of that test, and TEXT again
when the length check itself fails). -/
def columnSqlType (hasLarge : Bool) (c : PColumn) : String :=
  if hasLarge then
    match c.dtype with
    | PDtype.int64 => "NUMERIC"
    | PDtype.float64 => "NUMERIC"
    | PDtype.datetime => "TIMESTAMP"
    | PDtype.object => "TEXT"
  else
    match c.dtype with
    | PDtype.int64 => intSqlType (Except.ok c.vals)
    | PDtype.float64 => "NUMERIC"
    | PDtype.datetime => "TIMESTAMP"
    | PDtype.object => "TEXT"

/-- Index lookup in the duplicate-tracking dict of the schema generator. -/
def lookupIdx (k : String) : List (String × Nat) → Option Nat
  | [] => none
  | (k2, v) :: m => if k = k2 then some v else lookupIdx k m

/-- One iteration of the column loop of the schema generator (processor.py
lines 367-432): clean the name, suffix it when already seen, and pair it with
its SQL type. -/
def schemaStep (hasLarge : Bool) (acc : List (String × String) × List (String × Nat))
    (c : PColumn) : List (String × String) × List (String × Nat) :=
  let clean := cleanCol c.name
  match lookupIdx clean acc.2 with
  | some k =>
    (acc.1 ++ [(clean ++ "_" ++ Nat.repr (k + 1), columnSqlType hasLarge c)],
     (clean, k + 1) :: acc.2)
  | none =>
    (acc.1 ++ [(clean, columnSqlType hasLarge c)], (clean, 0) :: acc.2)

/-- The ordered (identifier, SQL type) pairs produced by the schema
generator for one DataFrame. -/
def schemaPairs (df : DataFrame) (tableName : String) : List (String × String) :=
  (df.cols.foldl (schemaStep (hasLargeNumbers tableName)) ([], [])).1

/-- The generated DDL string (processor.py line 435). -/
def generateSchema (df : DataFrame) (tableName : String) : String :=
  "CREATE TABLE IF NOT EXISTS " ++ tableName ++ " (id SERIAL PRIMARY KEY, " ++
    String.intercalate ", " ((schemaPairs df tableName).map (fun p => p.1 ++ " " ++ p.2)) ++
    ");"

/-- The degraded all-TEXT schema built in the exception handler of the
caller (processor.py lines 265-269): the synthetic primary key plus one TEXT
column per raw column, in order, with the same name cleaning and no
deduplication. -/
def simpleSchemaStr (df : DataFrame) (tableName : String) : String :=
  (df.cols.foldl (fun s c => s ++ ", " ++ cleanCol c.name ++ " TEXT")
    ("CREATE TABLE IF NOT EXISTS " ++ tableName ++ " (id SERIAL PRIMARY KEY")) ++ ");"

/-- Schema resolution in the file processor (processor.py lines 254-272): the
schema generation attempt either succeeds, or any internal error is caught
and the degraded all-TEXT schema is used; either way a schema is produced and
the load continues.  The Except argument stands for the outcome of the
generation attempt in the Python runtime. -/
def resolveSchema (df : DataFrame) (tableName : String)
    (gen : Except String Unit) : String :=
  match gen with
  | Except.ok _ => generateSchema df tableName
  | Except.error _ => simpleSchemaStr df tableName

/-! ## Bulk loader (database.py insert_data, processor.py lines 281-322)

HTTP is external: the outcome of one POST attempt is an oracle value,
either some status code or none for a transport exception.  Record contents
never influence the control flow of the batch loop, so records stay
abstract. -/

/-- Outcome of one batch POST (database.py lines 242-253): a 204 No Content
response is success; a status of 400 or more raises and so fails the attempt;
any other status falls through to the success print; a transport exception
(none) fails the attempt. -/
def attemptOk : Option Nat → Bool
  | none => false
  | some code => if code = 204 then true else if 400 ≤ code then false else true

/-- The retry loop around one chunk (database.py lines 224-263): up to three
attempts, stopping at the first success; the pair returned is the number of
attempts issued and whether the chunk succeeded.  After the third failure the
error is logged and the loop breaks without raising. -/
def runChunk (oracle : Nat → Option Nat) : Nat × Bool :=
  if attemptOk (oracle 0) then (1, true)
  else if attemptOk (oracle 1) then (2, true)
  else if attemptOk (oracle 2) then (3, true)
  else (3, false)

/-- Chunking of the cleaned records (database.py lines 218-220):
records[i : i + 50] for i in range(0, len(records), 50). -/
def chunks50 {α : Type} : List α → List (List α)
  | [] => []
  | a :: as => (a :: as).take 50 :: chunks50 ((a :: as).drop 50)
termination_by l => l.length
decreasing_by
  simp only [List.length_drop, List.length_cons]
  omega

/-- The batch loop of insert_data: every chunk is submitted through the retry
loop, one after the other; the outcome of each chunk is recorded and the loop
always reaches the next chunk.  The oracle gives the attempt outcomes per
chunk index and attempt index. -/
def insertData {α : Type} (recs : List α) (oracle : Nat → Nat → Option Nat) :
    List (Nat × Bool) :=
  (chunks50 recs).enum.map (fun p => runChunk (oracle p.1))

/-- Result of the existing-data pre-check and insertion step of the file
processor. -/
structure LoadOutcome : Type where
  skipped : Bool
  insertCalls : Nat
  chunkResults : List (Nat × Bool)
deriving DecidableEq

/-- The pre-check and insertion in the file processor (processor.py lines
314-322): a positive reported record count skips insertion entirely;
otherwise insert_data runs over all chunks.  insertCalls counts every POST
issued against the store. -/
def checkAndInsert {α : Type} (recordCount : Nat) (recs : List α)
    (oracle : Nat → Nat → Option Nat) : LoadOutcome :=
  if 0 < recordCount then
    { skipped := true, insertCalls := 0, chunkResults := [] }
  else
    let rs := insertData recs oracle
    { skipped := false, insertCalls := (rs.map Prod.fst).sum, chunkResults := rs }

/-! ## Supporting lemmas -/

/-- The retry loop issues at most three attempts on a chunk. -/
theorem runChunk_fst_le (oracle : Nat → Option Nat) : (runChunk oracle).1 ≤ 3 := by
  unfold runChunk
  split_ifs <;> simp

/-- Mapping a function of the index over an enumerated list is a map over the
index range. -/
theorem enum_map_fst {β γ : Type} (l : List β) (f : Nat → γ) :
    l.enum.map (fun p => f p.1) = (List.range l.length).map f := by
  rw [List.enum_eq_zip_range]
  have h1 : (fun p : Nat × β => f p.1) = f ∘ Prod.fst := rfl
  rw [h1, ← List.map_map, List.map_fst_zip _ _ (by rw [List.length_range])]

/-! ## Claim theorems -/

/-- C10: in the bulk insert path a batch attempt counts as successful exactly
when the HTTP status is below 400 — a transport exception fails the attempt,
a 204 No Content response and any other status below 400 succeed — and a
first-attempt success terminates the chunk after one call, while a status of
400 or above on every attempt consumes all three retries and marks the chunk
failed. -/
theorem c10_attempt_success_criterion :
    attemptOk none = false ∧
    ∀ code : Nat, attemptOk (some code) = decide (code < 400) ∧
      runChunk (fun _ => some code) = (if code < 400 then (1, true) else (3, false)) := by
  refine ⟨rfl, fun code => ?_⟩
  have hA : attemptOk (some code) = decide (code < 400) := by
    show (if code = 204 then true else if 400 ≤ code then false else true) =
      decide (code < 400)
    split_ifs with h1 h2
    · subst h1; decide
    · exact (decide_eq_false (by omega)).symm
    · exact (decide_eq_true (by omega)).symm
  refine ⟨hA, ?_⟩
  unfold runChunk
  simp only [hA]
  by_cases h : code < 400 <;> simp [h]

/-- C5: every chunk of rows is submitted with at most three attempts, the
outcome of chunk i depends only on the attempt oracle for chunk i, and the
result list covers every chunk — so exhausting the retries of one chunk never
raises and never prevents the remaining chunks from being submitted (the
batch loop is a total function over all chunks). -/
theorem c5_chunk_retry_isolation {α : Type} (recs : List α)
    (oracle : Nat → Nat → Option Nat) :
    insertData recs oracle =
      (List.range (chunks50 recs).length).map (fun i => runChunk (oracle i)) ∧
    (insertData recs oracle).length = (chunks50 recs).length ∧
    (insertData recs oracle).all (fun p => decide (p.1 ≤ 3)) = true := by
  have he : insertData recs oracle =
      (List.range (chunks50 recs).length).map (fun i => runChunk (oracle i)) := by
    unfold insertData
    exact enum_map_fst (chunks50 recs) (fun i => runChunk (oracle i))
  refine ⟨he, ?_, ?_⟩
  · rw [he, List.length_map, List.length_range]
  · rw [he, List.all_eq_true]
    intro p hp
    rw [List.mem_map] at hp
    obtain ⟨i, _, hpi⟩ := hp
    rw [← hpi]
    exact decide_eq_true (runChunk_fst_le (oracle i))

/-- C4: when the reported existing row count is positive the loader returns a
skipped outcome and issues zero insert calls against the store; rows are
inserted only in the branch where the reported count is zero (the conclusion
shows insertCalls is zero whenever the count is positive, so a nonzero number
of insert calls can only arise from a zero count). -/
theorem c4_positive_count_skips {α : Type} (recordCount : Nat) (recs : List α)
    (oracle : Nat → Nat → Option Nat) (h : 0 < recordCount) :
    (checkAndInsert recordCount recs oracle).skipped = true ∧
    (checkAndInsert recordCount recs oracle).insertCalls = 0 := by
  unfold checkAndInsert
  rw [if_pos h]
  exact ⟨rfl, rfl⟩

/-- C4 witness: a table reporting ten existing rows is skipped with zero
insert calls, even though three records were ready to load. -/
theorem c4_positive_count_skips_witness :
    0 < 10 ∧
    (checkAndInsert 10 [1, 2, 3] (fun _ _ => some 204)).skipped = true ∧
    (checkAndInsert 10 [1, 2, 3] (fun _ _ => some 204)).insertCalls = 0 :=
  ⟨by decide, c4_positive_count_skips 10 [1, 2, 3] (fun _ _ => some 204) (by decide)⟩

/-- The modelled maximum is none exactly on the empty list. -/
theorem listMaxI_eq_none {l : List Int} (h : listMaxI l = none) : l = [] := by
  cases l with
  | nil => rfl
  | cons x xs =>
    exfalso
    unfold listMaxI at h
    cases hx : listMaxI xs <;> rw [hx] at h <;> exact Option.noConfusion h

/-- Every member of a list is bounded by the modelled maximum. -/
theorem le_listMaxI {v : Int} {l : List Int} (hv : v ∈ l) :
    ∀ m, listMaxI l = some m → v ≤ m := by
  induction l with
  | nil => exact absurd hv (List.not_mem_nil v)
  | cons x xs ih =>
    intro m hm
    unfold listMaxI at hm
    cases hx : listMaxI xs with
    | none =>
      rw [hx] at hm
      have hxs : xs = [] := listMaxI_eq_none hx
      subst hxs
      have hvx : v = x := by simpa using hv
      cases hm
      exact le_of_eq hvx
    | some mx =>
      rw [hx] at hm
      cases hm
      rcases List.mem_cons.mp hv with h | h
      · exact h ▸ le_max_left x mx
      · exact le_trans (ih h mx hx) (le_max_right x mx)

/-- Every member of a list is bounded below by the modelled minimum. -/
theorem listMinI_le {v : Int} {l : List Int} (hv : v ∈ l) :
    ∀ m, listMinI l = some m → m ≤ v := by
  induction l with
  | nil => exact absurd hv (List.not_mem_nil v)
  | cons x xs ih =>
    intro m hm
    unfold listMinI at hm
    cases hx : listMinI xs with
    | none =>
      rw [hx] at hm
      have hxs : xs = [] := by
        cases xs with
        | nil => rfl
        | cons y ys =>
          exfalso
          unfold listMinI at hx
          cases hy : listMinI ys <;> rw [hy] at hx <;> exact Option.noConfusion hx
      subst hxs
      have hvx : v = x := by simpa using hv
      cases hm
      exact le_of_eq hvx.symm
    | some mx =>
      rw [hx] at hm
      cases hm
      rcases List.mem_cons.mp hv with h | h
      · exact h ▸ min_le_left x mx
      · exact le_trans (min_le_right x mx) (ih h mx hx)

/-- The modelled minimum is none exactly on the empty list. -/
theorem listMinI_eq_none {l : List Int} (h : listMinI l = none) : l = [] := by
  cases l with
  | nil => rfl
  | cons x xs =>
    exfalso
    unfold listMinI at h
    cases hx : listMinI xs <;> rw [hx] at h <;> exact Option.noConfusion h

/-- An integer column holding any value outside the signed 32-bit range is
typed NUMERIC by the schema generator, whatever the large-magnitude flag. -/
theorem columnSqlType_numeric_of_big {c : PColumn} {v : Int} (hl : Bool)
    (hdt : c.dtype = PDtype.int64) (hv : some v ∈ c.vals)
    (hout : 2147483647 < v ∨ v < -2147483648) :
    columnSqlType hl c = "NUMERIC" := by
  unfold columnSqlType
  cases hl with
  | true => rw [hdt]; rfl
  | false =>
    rw [hdt]
    show intSqlTypeCore c.vals = "NUMERIC"
    unfold intSqlTypeCore
    have hmem : v ∈ c.vals.filterMap id := List.mem_filterMap.mpr ⟨some v, hv, rfl⟩
    have hlen : 0 < (c.vals.filterMap id).length :=
      List.length_pos.mpr (List.ne_nil_of_mem hmem)
    rw [if_pos hlen]
    cases hmx : listMaxI (c.vals.filterMap id) with
    | none => exact absurd (listMaxI_eq_none hmx) (List.ne_nil_of_mem hmem)
    | some mx =>
      cases hmn : listMinI (c.vals.filterMap id) with
      | none => exact absurd (listMinI_eq_none hmn) (List.ne_nil_of_mem hmem)
      | some mn =>
        have h1 : v ≤ mx := le_listMaxI hmem mx hmx
        have h2 : mn ≤ v := listMinI_le hmem mn hmn
        have hbig : 2147483647 < mx ∨ mn < -2147483648 := by
          rcases hout with h | h
          · exact Or.inl (lt_of_lt_of_le h h1)
          · exact Or.inr (lt_of_le_of_lt h2 h)
        show (if 2147483647 < mx ∨ mn < -2147483648 then "NUMERIC" else "INTEGER") =
          "NUMERIC"
        rw [if_pos hbig]

/-- The SQL types in the generated schema pairs are, position by position,
the per-column type decisions, whatever name-deduplication state the column
loop is in. -/
theorem schemaStep_fold_snd (hasLarge : Bool) (cols : List PColumn) :
    ∀ acc : List (String × String) × List (String × Nat),
      ((cols.foldl (schemaStep hasLarge) acc).1).map Prod.snd =
        acc.1.map Prod.snd ++ cols.map (columnSqlType hasLarge) := by
  induction cols with
  | nil => intro acc; simp
  | cons c cs ih =>
    intro acc
    rw [List.foldl_cons, ih]
    unfold schemaStep
    cases h : lookupIdx (cleanCol c.name) acc.2 <;> simp [h]

/-- The generated schema assigns, in order, exactly the per-column type
decisions of the column loop. -/
theorem schemaPairs_map_snd (df : DataFrame) (t : String) :
    (schemaPairs df t).map Prod.snd =
      df.cols.map (columnSqlType (hasLargeNumbers t)) := by
  unfold schemaPairs
  rw [schemaStep_fold_snd]
  simp

/-- C2 counterexample: the catalogue-driven resolver of
create_ncua_tables.py never inspects observed values — the column
TOTAL_ASSETS of integer dtype whose observed values include 4000000000, a
value above the signed 32-bit maximum, is still assigned INTEGER, both when
the catalogue declares the field as int and when the field is absent and the
integer-dtype fallback fires.  So the claim is false for that cited
resolver. -/
theorem c2_value_blind_resolver_counterexample :
    some (4000000000 : Int) ∈
      (⟨"TOTAL_ASSETS", PDtype.int64, [some 4000000000]⟩ : PColumn).vals ∧
    (2147483647 : Int) < 4000000000 ∧
    get_sql_type_for_column [(codes "TOTAL_ASSETS", codes "int")]
      (codes "TOTAL_ASSETS") PDtype.int64 = "INTEGER" ∧
    get_sql_type_for_column [] (codes "TOTAL_ASSETS") PDtype.int64 = "INTEGER" := by
  refine ⟨by decide, by decide, by decide, by decide⟩

/-- C2 amended: in the statistical schema generator of processor.py, an
integer-kind column whose observed values include a value outside the signed
32-bit range is never typed INTEGER: its column decision is the
arbitrary-precision NUMERIC, under both the large-magnitude table override
and the statistical min/max fallback, and the entry at that column position
in the generated schema pairs is NUMERIC.  The catalogue-driven resolver of
create_ncua_tables.py is exempt: it never sees observed values (see the
counterexample). -/
theorem c2_out_of_range_never_integer (df : DataFrame) (t : String)
    (c : PColumn) (v : Int) (hl : Bool)
    (hdt : c.dtype = PDtype.int64) (hv : some v ∈ c.vals)
    (hout : 2147483647 < v ∨ v < -2147483648) :
    columnSqlType hl c = "NUMERIC" ∧ columnSqlType hl c ≠ "INTEGER" ∧
    ∀ i : Nat, df.cols.get? i = some c →
      ((schemaPairs df t).map Prod.snd).get? i = some "NUMERIC" := by
  refine ⟨columnSqlType_numeric_of_big hl hdt hv hout, ?_, ?_⟩
  · rw [columnSqlType_numeric_of_big hl hdt hv hout]
    decide
  · intro i hi
    rw [schemaPairs_map_snd, List.get?_map, hi]
    simp [columnSqlType_numeric_of_big (hasLargeNumbers t) hdt hv hout]

/-- C2 witness: a one-column extract holding the value 4000000000 resolves
that column to NUMERIC in the generated schema. -/
theorem c2_out_of_range_never_integer_witness :
    (⟨"acct", PDtype.int64, [some 4000000000]⟩ : PColumn).dtype = PDtype.int64 ∧
    some (4000000000 : Int) ∈ (⟨"acct", PDtype.int64, [some 4000000000]⟩ : PColumn).vals ∧
    ((2147483647 : Int) < 4000000000 ∨ (4000000000 : Int) < -2147483648) ∧
    (columnSqlType false ⟨"acct", PDtype.int64, [some 4000000000]⟩ = "NUMERIC" ∧
      columnSqlType false ⟨"acct", PDtype.int64, [some 4000000000]⟩ ≠ "INTEGER" ∧
      ∀ i : Nat,
        (⟨[⟨"acct", PDtype.int64, [some 4000000000]⟩]⟩ : DataFrame).cols.get? i =
          some ⟨"acct", PDtype.int64, [some 4000000000]⟩ →
        ((schemaPairs ⟨[⟨"acct", PDtype.int64, [some 4000000000]⟩]⟩ "atm").map
          Prod.snd).get? i = some "NUMERIC") :=
  ⟨rfl, by decide, by decide,
    c2_out_of_range_never_integer ⟨[⟨"acct", PDtype.int64, [some 4000000000]⟩]⟩ "atm"
      ⟨"acct", PDtype.int64, [some 4000000000]⟩ 4000000000 false rfl (by decide) (by decide)⟩

/-- C9 counterexample: an integer column whose values are all null does not
raise and does not become NUMERIC — the no-non-null-values branch types it
INTEGER, both in the column decision and in the full generated schema. -/
theorem c9_all_null_counterexample :
    intSqlTypeCore [none, none] = "INTEGER" ∧
    intSqlTypeCore [none, none] ≠ "NUMERIC" ∧
    generateSchema ⟨[⟨"c", PDtype.int64, [none, none]⟩]⟩ "tbl" =
      "CREATE TABLE IF NOT EXISTS tbl (id SERIAL PRIMARY KEY, c INTEGER);" := by
  refine ⟨rfl, by decide, ?_⟩
  decide

/-- C9 amended: an exception raised while computing the min/max of an
integer-kind column is caught and answered with the widest safe type NUMERIC
rather than propagating; but an all-null integer column does not raise — its
non-null values are dropped first and the empty case defaults to INTEGER. -/
theorem c9_error_numeric_all_null_integer (e : String) (vals : List (Option Int))
    (hnull : ∀ v ∈ vals, v = none) :
    intSqlType (Except.error e) = "NUMERIC" ∧ intSqlTypeCore vals = "INTEGER" := by
  refine ⟨rfl, ?_⟩
  unfold intSqlTypeCore
  have hnil : vals.filterMap id = [] := by
    rw [List.filterMap_eq_nil_iff]
    intro a ha
    rw [hnull a ha]
    rfl
  rw [hnil]
  rfl

/-- C9 amended witness: the caught-error path on a two-null column yields
NUMERIC while the same all-null column itself is typed INTEGER. -/
theorem c9_error_numeric_all_null_integer_witness :
    (∀ v ∈ ([none, none] : List (Option Int)), v = none) ∧
    intSqlType (Except.error "overflow during max") = "NUMERIC" ∧
    intSqlTypeCore ([none, none] : List (Option Int)) = "INTEGER" :=
  ⟨by decide, c9_error_numeric_all_null_integer "overflow during max" [none, none] (by decide)⟩

/-- C6 counterexample: the suffixing scheme is not collision-free — when a
raw name equals an earlier duplicate's suffixed form, the generated
identifiers repeat: raw names amt, amt_1, amt resolve to amt, amt_1, amt_1,
which are not pairwise distinct. -/
theorem c6_collision_counterexample :
    (schemaPairs ⟨[⟨"amt", PDtype.object, []⟩, ⟨"amt_1", PDtype.object, []⟩,
        ⟨"amt", PDtype.object, []⟩]⟩ "t").map Prod.fst = ["amt", "amt_1", "amt_1"] ∧
    ¬ List.Nodup ((schemaPairs ⟨[⟨"amt", PDtype.object, []⟩, ⟨"amt_1", PDtype.object, []⟩,
        ⟨"amt", PDtype.object, []⟩]⟩ "t").map Prod.fst) := by
  refine ⟨by decide, ?_⟩
  decide

/-- C6 amended: duplicate raw column names are suffixed deterministically in
order of first appearance — the n-th repetition of a name gets suffix _n —
so amt, amt, amt resolves to amt, amt_1, amt_2, in order and pairwise
distinct; distinctness is not guaranteed for every raw name list, since a raw
name may coincide with a suffixed form (see the counterexample). -/
theorem c6_suffix_in_order :
    (schemaPairs ⟨[⟨"amt", PDtype.object, []⟩, ⟨"amt", PDtype.object, []⟩,
        ⟨"amt", PDtype.object, []⟩]⟩ "t").map Prod.fst = ["amt", "amt_1", "amt_2"] ∧
    List.Nodup ((schemaPairs ⟨[⟨"amt", PDtype.object, []⟩, ⟨"amt", PDtype.object, []⟩,
        ⟨"amt", PDtype.object, []⟩]⟩ "t").map Prod.fst) := by
  refine ⟨by decide, ?_⟩
  decide

/-- Folding string concatenation from an arbitrary start equals the start
followed by the join of the folded pieces. -/
theorem strFoldl_shift (l : List String) :
    ∀ s : String, l.foldl (fun a b => a ++ b) s = s ++ String.join l := by
  induction l with
  | nil =>
    intro s
    show s = s ++ String.join []
    rw [show String.join [] = "" from rfl, String.append_empty]
  | cons x xs ih =>
    intro s
    rw [List.foldl_cons, ih (s ++ x)]
    have hj : String.join (x :: xs) = x ++ String.join xs := by
      show xs.foldl (fun a b => a ++ b) ("" ++ x) = x ++ String.join xs
      rw [String.empty_append, ih x]
    rw [hj, String.append_assoc]

/-- Folding string concatenation of a rendered piece per element equals the
starting string followed by the join of the rendered pieces. -/
theorem foldl_append_join {β : Type} (g : β → String) (l : List β) :
    ∀ s : String, l.foldl (fun acc c => acc ++ g c) s = s ++ String.join (l.map g) := by
  induction l with
  | nil =>
    intro s
    show s = s ++ String.join []
    rw [show String.join [] = "" from rfl, String.append_empty]
  | cons x xs ih =>
    intro s
    rw [List.foldl_cons, ih, List.map_cons]
    have hj : String.join (g x :: xs.map g) = g x ++ String.join (xs.map g) := by
      show (xs.map g).foldl (fun a b => a ++ b) ("" ++ g x) = g x ++ String.join (xs.map g)
      rw [String.empty_append, strFoldl_shift (xs.map g) (g x)]
    rw [hj, String.append_assoc]

/-- C1: schema resolution never aborts the load — every outcome of the
generation attempt (including any internal error raised on an all-null
column, mixed-kind column, or zero-row extract) yields a schema: either the
normally generated one, or the degraded schema, which is exactly the
synthetic primary key followed by every column of the same column list, in
order, typed TEXT. -/
theorem c1_resolution_never_aborts (df : DataFrame) (t : String)
    (gen : Except String Unit) :
    (resolveSchema df t gen = generateSchema df t ∨
      resolveSchema df t gen = simpleSchemaStr df t) ∧
    simpleSchemaStr df t =
      "CREATE TABLE IF NOT EXISTS " ++ t ++ " (id SERIAL PRIMARY KEY" ++
        String.join (df.cols.map (fun c => ", " ++ cleanCol c.name ++ " TEXT")) ++
        ");" := by
  constructor
  · cases gen with
    | ok _ => exact Or.inl rfl
    | error _ => exact Or.inr rfl
  · unfold simpleSchemaStr
    have hf : (fun (s : String) (c : PColumn) => s ++ ", " ++ cleanCol c.name ++ " TEXT") =
        (fun (s : String) (c : PColumn) => s ++ (", " ++ cleanCol c.name ++ " TEXT")) := by
      funext s c
      simp [String.append_assoc]
    rw [hf, foldl_append_join (fun c : PColumn => ", " ++ cleanCol c.name ++ " TEXT")]

/-- C3: a column whose lower-cased name contains phone, fax, or phonenumber
is typed TEXT unconditionally — for every catalogue and every inferred dtype,
both in get_sql_type_for_column and in the duplicate keyword check of the
table-creation path.  The critical-join-field rule that precedes the keyword
rule can never fire on such a name, since none of the three join-field names
contains a keyword. -/
theorem c3_keyword_always_text (defs : Catalog) (name : List Nat) (dtype : PDtype)
    (h : keywordHit (lowStr name) = true) :
    get_sql_type_for_column defs name dtype = "TEXT" ∧
    createTableColType defs name dtype = "TEXT" := by
  have h1 : ¬ lowStr name = codes "cu_number" := by
    intro he
    rw [he] at h
    exact absurd h (by decide)
  have h2 : ¬ lowStr name = codes "join_number" := by
    intro he
    rw [he] at h
    exact absurd h (by decide)
  have h3 : ¬ lowStr name = codes "cycle_date" := by
    intro he
    rw [he] at h
    exact absurd h (by decide)
  constructor
  · unfold get_sql_type_for_column
    rw [if_neg h1, if_neg h2, if_neg h3, if_pos h]
  · unfold createTableColType
    rw [if_pos h]

/-- C3 witness: the column Home_Phone is typed TEXT although the catalogue
declares HOME_PHONE as int and the pandas dtype is integer. -/
theorem c3_keyword_always_text_witness :
    keywordHit (lowStr (codes "Home_Phone")) = true ∧
    get_sql_type_for_column [(codes "HOME_PHONE", codes "int")] (codes "Home_Phone")
      PDtype.int64 = "TEXT" ∧
    createTableColType [(codes "HOME_PHONE", codes "int")] (codes "Home_Phone")
      PDtype.int64 = "TEXT" :=
  ⟨by decide,
    c3_keyword_always_text [(codes "HOME_PHONE", codes "int")] (codes "Home_Phone")
      PDtype.int64 (by decide)⟩

/-- C8 counterexample: the post-processing step does not force the join-key
aliases regardless of the declared type — when the description files declare
CU_NUMBER as varchar, the catalogue is left unchanged and the CU-NUMBER
spelling resolves to TEXT, not INTEGER. -/
theorem c8_override_counterexample :
    postProcessColumnTypes
        (loadFileRows [[codes "CU_NUMBER", codes "varchar", codes "d"]] []) =
      loadFileRows [[codes "CU_NUMBER", codes "varchar", codes "d"]] [] ∧
    get_sql_type_for_column
        (postProcessColumnTypes
          (loadFileRows [[codes "CU_NUMBER", codes "varchar", codes "d"]] []))
        (codes "CU-NUMBER") PDtype.int64 = "TEXT" := by
  refine ⟨by decide, ?_⟩
  decide

/-- C8 amended: the post-processing step forces the three recognized
spellings of the credit-union number field to the declared type int — and
hence to the physical type INTEGER — exactly when the loaded declared type
for CU_NUMBER lower-cases to int; for any other declared type the catalogue
is left untouched (see the counterexample). -/
theorem c8_join_key_override (m : Catalog) (t : List Nat)
    (h1 : clookup (codes "CU_NUMBER") m = some t)
    (h2 : lowStr t = codes "int") :
    clookup (codes "CU_NUMBER") (postProcessColumnTypes m) = some (codes "int") ∧
    clookup (codes "CU-NUMBER") (postProcessColumnTypes m) = some (codes "int") ∧
    clookup (codes "CUNUMBER") (postProcessColumnTypes m) = some (codes "int") ∧
    (∀ d, get_sql_type_for_column (postProcessColumnTypes m) (codes "CU_NUMBER") d =
      "INTEGER") ∧
    (∀ d, get_sql_type_for_column (postProcessColumnTypes m) (codes "CU-NUMBER") d =
      "INTEGER") ∧
    (∀ d, get_sql_type_for_column (postProcessColumnTypes m) (codes "CUNUMBER") d =
      "INTEGER") := by
  have hm : postProcessColumnTypes m =
      (codes "CUNUMBER", codes "int") :: (codes "CU-NUMBER", codes "int") ::
        (codes "CU_NUMBER", codes "int") :: m := by
    unfold postProcessColumnTypes
    rw [h1]
    show (if lowStr t = codes "int" then _ else m) = _
    rw [if_pos h2]
    rfl
  have hu : clookup (codes "CU_NUMBER") (postProcessColumnTypes m) =
      some (codes "int") := by
    rw [hm]
    show (if codes "CU_NUMBER" = codes "CUNUMBER" then _ else _) = _
    rw [if_neg (by decide)]
    show (if codes "CU_NUMBER" = codes "CU-NUMBER" then _ else _) = _
    rw [if_neg (by decide)]
    show (if codes "CU_NUMBER" = codes "CU_NUMBER" then some (codes "int") else _) = _
    rw [if_pos rfl]
  have hh : clookup (codes "CU-NUMBER") (postProcessColumnTypes m) =
      some (codes "int") := by
    rw [hm]
    show (if codes "CU-NUMBER" = codes "CUNUMBER" then _ else _) = _
    rw [if_neg (by decide)]
    show (if codes "CU-NUMBER" = codes "CU-NUMBER" then some (codes "int") else _) = _
    rw [if_pos rfl]
  have hn : clookup (codes "CUNUMBER") (postProcessColumnTypes m) =
      some (codes "int") := by
    rw [hm]
    show (if codes "CUNUMBER" = codes "CUNUMBER" then some (codes "int") else _) = _
    rw [if_pos rfl]
  refine ⟨hu, hh, hn, ?_, ?_, ?_⟩
  · intro d
    unfold get_sql_type_for_column
    rw [if_pos (by decide : lowStr (codes "CU_NUMBER") = codes "cu_number")]
  · intro d
    unfold get_sql_type_for_column
    rw [if_neg (by decide : ¬ lowStr (codes "CU-NUMBER") = codes "cu_number"),
      if_neg (by decide : ¬ lowStr (codes "CU-NUMBER") = codes "join_number"),
      if_neg (by decide : ¬ lowStr (codes "CU-NUMBER") = codes "cycle_date"),
      if_neg (by decide : ¬ keywordHit (lowStr (codes "CU-NUMBER")) = true)]
    rw [show pyStripBy wsCode (upStr (codes "CU-NUMBER")) = codes "CU-NUMBER" from
      by decide]
    show (match clookup (codes "CU-NUMBER") (postProcessColumnTypes m) with
      | some ty => mapNcuaType (lowStr ty)
      | none =>
        match d with
        | PDtype.int64 => "INTEGER"
        | PDtype.float64 => "NUMERIC"
        | PDtype.datetime => "TIMESTAMP"
        | PDtype.object => "TEXT") = "INTEGER"
    rw [hh]
    rfl
  · intro d
    unfold get_sql_type_for_column
    rw [if_neg (by decide : ¬ lowStr (codes "CUNUMBER") = codes "cu_number"),
      if_neg (by decide : ¬ lowStr (codes "CUNUMBER") = codes "join_number"),
      if_neg (by decide : ¬ lowStr (codes "CUNUMBER") = codes "cycle_date"),
      if_neg (by decide : ¬ keywordHit (lowStr (codes "CUNUMBER")) = true)]
    rw [show pyStripBy wsCode (upStr (codes "CUNUMBER")) = codes "CUNUMBER" from
      by decide]
    show (match clookup (codes "CUNUMBER") (postProcessColumnTypes m) with
      | some ty => mapNcuaType (lowStr ty)
      | none =>
        match d with
        | PDtype.int64 => "INTEGER"
        | PDtype.float64 => "NUMERIC"
        | PDtype.datetime => "TIMESTAMP"
        | PDtype.object => "TEXT") = "INTEGER"
    rw [hn]
    rfl

/-- C8 witness: from a catalogue declaring CU_NUMBER as INT (upper case), the
post-processing step pins all three spellings to int and each resolves to
INTEGER. -/
theorem c8_join_key_override_witness :
    clookup (codes "CU_NUMBER") [(codes "CU_NUMBER", codes "INT")] =
      some (codes "INT") ∧
    lowStr (codes "INT") = codes "int" ∧
    (clookup (codes "CU_NUMBER")
        (postProcessColumnTypes [(codes "CU_NUMBER", codes "INT")]) =
      some (codes "int") ∧
    clookup (codes "CU-NUMBER")
        (postProcessColumnTypes [(codes "CU_NUMBER", codes "INT")]) =
      some (codes "int") ∧
    clookup (codes "CUNUMBER")
        (postProcessColumnTypes [(codes "CU_NUMBER", codes "INT")]) =
      some (codes "int") ∧
    (∀ d, get_sql_type_for_column
        (postProcessColumnTypes [(codes "CU_NUMBER", codes "INT")])
        (codes "CU_NUMBER") d = "INTEGER") ∧
    (∀ d, get_sql_type_for_column
        (postProcessColumnTypes [(codes "CU_NUMBER", codes "INT")])
        (codes "CU-NUMBER") d = "INTEGER") ∧
    (∀ d, get_sql_type_for_column
        (postProcessColumnTypes [(codes "CU_NUMBER", codes "INT")])
        (codes "CUNUMBER") d = "INTEGER")) :=
  ⟨by decide, by decide,
    c8_join_key_override [(codes "CU_NUMBER", codes "INT")] (codes "INT")
      (by decide) (by decide)⟩

/-! ## Character-level lemmas for the catalogue alias invariant -/

/-- Uppercasing maps no character onto the underscore except the underscore
itself. -/
theorem upCode_eq_95 (c : Nat) : upCode c = 95 ↔ c = 95 := by
  unfold upCode
  split <;> omega

/-- Uppercasing maps no character onto the hyphen except the hyphen itself. -/
theorem upCode_eq_45 (c : Nat) : upCode c = 45 ↔ c = 45 := by
  unfold upCode
  split <;> omega

/-- Underscore membership is invariant under uppercasing. -/
theorem mem95_upStr (l : List Nat) : 95 ∈ upStr l ↔ 95 ∈ l := by
  unfold upStr
  rw [List.mem_map]
  constructor
  · rintro ⟨a, ha, hu⟩
    rw [upCode_eq_95] at hu
    exact hu ▸ ha
  · intro h
    exact ⟨95, h, by decide⟩

/-- Hyphen membership is invariant under uppercasing. -/
theorem mem45_upStr (l : List Nat) : 45 ∈ upStr l ↔ 45 ∈ l := by
  unfold upStr
  rw [List.mem_map]
  constructor
  · rintro ⟨a, ha, hu⟩
    rw [upCode_eq_45] at hu
    exact hu ▸ ha
  · intro h
    exact ⟨45, h, by decide⟩

/-- Uppercasing commutes with swapping underscore for hyphen, on one
character. -/
theorem upCode_swap95 (c : Nat) :
    upCode (if c = 95 then 45 else c) = if upCode c = 95 then 45 else upCode c := by
  unfold upCode
  split_ifs <;> omega

/-- Uppercasing commutes with swapping hyphen for underscore, on one
character. -/
theorem upCode_swap45 (c : Nat) :
    upCode (if c = 45 then 95 else c) = if upCode c = 45 then 95 else upCode c := by
  unfold upCode
  split_ifs <;> omega

/-- Uppercasing commutes with the underscore-to-hyphen swap. -/
theorem upStr_swapUS (l : List Nat) : upStr (swapUS l) = swapUS (upStr l) := by
  unfold upStr swapUS
  rw [List.map_map, List.map_map]
  congr 1
  funext c
  exact upCode_swap95 c

/-- Uppercasing commutes with the hyphen-to-underscore swap. -/
theorem upStr_swapSU (l : List Nat) : upStr (swapSU l) = swapSU (upStr l) := by
  unfold upStr swapSU
  rw [List.map_map, List.map_map]
  congr 1
  funext c
  exact upCode_swap45 c

/-- After swapping underscores to hyphens no underscore remains. -/
theorem not_mem95_swapUS (l : List Nat) : 95 ∉ swapUS l := by
  unfold swapUS
  rw [List.mem_map]
  rintro ⟨a, _, hv⟩
  split at hv <;> omega

/-- After swapping hyphens to underscores no hyphen remains. -/
theorem not_mem45_swapSU (l : List Nat) : 45 ∉ swapSU l := by
  unfold swapSU
  rw [List.mem_map]
  rintro ⟨a, _, hv⟩
  split at hv <;> omega

/-- A string containing an underscore contains a hyphen after the
underscore-to-hyphen swap. -/
theorem mem45_swapUS {l : List Nat} (h : 95 ∈ l) : 45 ∈ swapUS l := by
  unfold swapUS
  rw [List.mem_map]
  exact ⟨95, h, by decide⟩

/-- A string containing a hyphen contains an underscore after the
hyphen-to-underscore swap. -/
theorem mem95_swapSU {l : List Nat} (h : 45 ∈ l) : 95 ∈ swapSU l := by
  unfold swapSU
  rw [List.mem_map]
  exact ⟨45, h, by decide⟩

/-- The underscore-to-hyphen swap fixes underscore-free strings. -/
theorem swapUS_id : ∀ {l : List Nat}, 95 ∉ l → swapUS l = l
  | [], _ => rfl
  | x :: xs, h => by
    have hx : ¬ x = 95 := by
      intro he
      subst he
      exact h (List.mem_cons_self 95 xs)
    show (if x = 95 then 45 else x) :: swapUS xs = x :: xs
    rw [if_neg hx, swapUS_id (fun hm => h (List.mem_cons_of_mem x hm))]

/-- The hyphen-to-underscore swap fixes hyphen-free strings. -/
theorem swapSU_id : ∀ {l : List Nat}, 45 ∉ l → swapSU l = l
  | [], _ => rfl
  | x :: xs, h => by
    have hx : ¬ x = 45 := by
      intro he
      subst he
      exact h (List.mem_cons_self 45 xs)
    show (if x = 45 then 95 else x) :: swapSU xs = x :: xs
    rw [if_neg hx, swapSU_id (fun hm => h (List.mem_cons_of_mem x hm))]

/-- The two swaps cancel on hyphen-free strings. -/
theorem swapSU_swapUS : ∀ {l : List Nat}, 45 ∉ l → swapSU (swapUS l) = l
  | [], _ => rfl
  | x :: xs, h => by
    have hx : ¬ x = 45 := by
      intro he
      subst he
      exact h (List.mem_cons_self 45 xs)
    show (if (if x = 95 then 45 else x) = 45 then 95 else if x = 95 then 45 else x) ::
      swapSU (swapUS xs) = x :: xs
    rw [swapSU_swapUS (fun hm => h (List.mem_cons_of_mem x hm))]
    have hh : (if (if x = 95 then 45 else x) = 45 then 95 else if x = 95 then 45 else x) =
        x := by
      split_ifs <;> omega
    rw [hh]

/-- The two swaps cancel on underscore-free strings. -/
theorem swapUS_swapSU : ∀ {l : List Nat}, 95 ∉ l → swapUS (swapSU l) = l
  | [], _ => rfl
  | x :: xs, h => by
    have hx : ¬ x = 95 := by
      intro he
      subst he
      exact h (List.mem_cons_self 95 xs)
    show (if (if x = 45 then 95 else x) = 95 then 45 else if x = 45 then 95 else x) ::
      swapUS (swapSU xs) = x :: xs
    rw [swapUS_swapSU (fun hm => h (List.mem_cons_of_mem x hm))]
    have hh : (if (if x = 45 then 95 else x) = 95 then 45 else if x = 45 then 95 else x) =
        x := by
      split_ifs <;> omega
    rw [hh]

/-- Two lists differ when a value lies in one but not the other. -/
theorem listNe_of_mem {a : Nat} {l1 l2 : List Nat} (h1 : a ∈ l1) (h2 : a ∉ l2) :
    l1 ≠ l2 :=
  fun he => h2 (he ▸ h1)

/-- Loading one description row with an unmixed field name preserves the
alias invariant of the catalogue. -/
theorem loadRow_inv {m : Catalog} (hm : AliasInv m) {r : List (List Nat)}
    (hr : rowNoMix r = true) : AliasInv (loadRow m r) := by
  match r with
  | [] => exact hm
  | [n] => exact hm
  | [n, t] => exact hm
  | n :: t :: c0 :: rest =>
    have hnm : ¬ (95 ∈ parseField n ∧ 45 ∈ parseField n) := by
      have hr2 : (!(decide (95 ∈ parseField n ∧ 45 ∈ parseField n))) = true := hr
      rw [Bool.not_eq_true'] at hr2
      exact of_decide_eq_false hr2
    by_cases h95 : 95 ∈ parseField n
    · have h45 : 45 ∉ parseField n := fun h45 => hnm ⟨h95, h45⟩
      have hload : loadRow m (n :: t :: c0 :: rest) =
          (upStr (swapUS (parseField n)), parseField t) ::
            (upStr (parseField n), parseField t) :: m := by
        simp only [loadRow]
        rw [if_pos h95]
        rfl
      rw [hload]
      intro k hk45
      have hA95 : 95 ∈ upStr (parseField n) := (mem95_upStr _).mpr h95
      have hA45 : 45 ∉ upStr (parseField n) := fun hmem => h45 ((mem45_upStr _).mp hmem)
      have hBs : upStr (swapUS (parseField n)) = swapUS (upStr (parseField n)) :=
        upStr_swapUS _
      have hB45 : 45 ∈ upStr (swapUS (parseField n)) := by
        rw [hBs]
        exact mem45_swapUS hA95
      by_cases hk95 : 95 ∈ k
      · have hk295 : 95 ∉ swapUS k := not_mem95_swapUS k
        have hkB : ¬ k = upStr (swapUS (parseField n)) :=
          (listNe_of_mem hB45 hk45).symm
        simp only [clookup]
        by_cases hkA : k = upStr (parseField n)
        · have hk2B : swapUS k = upStr (swapUS (parseField n)) := by
            rw [hkA, hBs]
          rw [if_neg hkB, if_pos hkA, if_pos hk2B]
        · have hk2B : ¬ swapUS k = upStr (swapUS (parseField n)) := by
            intro he
            rw [hBs] at he
            apply hkA
            rw [← swapSU_swapUS hk45, he, swapSU_swapUS hA45]
          have hk2A : ¬ swapUS k = upStr (parseField n) :=
            fun he => (listNe_of_mem hA95 hk295) he.symm
          rw [if_neg hkB, if_neg hkA, if_neg hk2B, if_neg hk2A]
          exact hm k hk45
      · rw [swapUS_id hk95]
    · by_cases h45 : 45 ∈ parseField n
      · have hload : loadRow m (n :: t :: c0 :: rest) =
            (upStr (swapSU (parseField n)), parseField t) ::
              (upStr (parseField n), parseField t) :: m := by
          simp only [loadRow]
          rw [if_neg h95, if_pos h45]
          rfl
        rw [hload]
        intro k hk45
        have hA45 : 45 ∈ upStr (parseField n) := (mem45_upStr _).mpr h45
        have hA95 : 95 ∉ upStr (parseField n) :=
          fun hmem => h95 ((mem95_upStr _).mp hmem)
        have hCs : upStr (swapSU (parseField n)) = swapSU (upStr (parseField n)) :=
          upStr_swapSU _
        have hC45 : 45 ∉ upStr (swapSU (parseField n)) := by
          rw [hCs]
          exact not_mem45_swapSU _
        have hC95 : 95 ∈ upStr (swapSU (parseField n)) := by
          rw [hCs]
          exact mem95_swapSU hA45
        by_cases hk95 : 95 ∈ k
        · have hk295 : 95 ∉ swapUS k := not_mem95_swapUS k
          simp only [clookup]
          by_cases hkC : k = upStr (swapSU (parseField n))
          · have hk2A : swapUS k = upStr (parseField n) := by
              rw [hkC, hCs, swapUS_swapSU hA95]
            have hk2C : ¬ swapUS k = upStr (swapSU (parseField n)) :=
              fun he => (listNe_of_mem hC95 hk295) he.symm
            rw [if_pos hkC, if_neg hk2C, if_pos hk2A]
          · have hkA : ¬ k = upStr (parseField n) :=
              (listNe_of_mem hA45 hk45).symm
            have hk2C : ¬ swapUS k = upStr (swapSU (parseField n)) :=
              fun he => (listNe_of_mem hC95 hk295) he.symm
            have hk2A : ¬ swapUS k = upStr (parseField n) := by
              intro he
              apply hkC
              rw [← swapSU_swapUS hk45, he, hCs]
            rw [if_neg hkC, if_neg hkA, if_neg hk2C, if_neg hk2A]
            exact hm k hk45
        · rw [swapUS_id hk95]
      · have hload : loadRow m (n :: t :: c0 :: rest) =
            (upStr (parseField n), parseField t) :: m := by
          simp only [loadRow]
          rw [if_neg h95, if_neg h45]
          rfl
        rw [hload]
        intro k hk45
        have hA95 : 95 ∉ upStr (parseField n) :=
          fun hmem => h95 ((mem95_upStr _).mp hmem)
        have hA45 : 45 ∉ upStr (parseField n) :=
          fun hmem => h45 ((mem45_upStr _).mp hmem)
        by_cases hk95 : 95 ∈ k
        · have hkA : ¬ k = upStr (parseField n) := listNe_of_mem hk95 hA95
          have hk2A : ¬ swapUS k = upStr (parseField n) :=
            listNe_of_mem (mem45_swapUS hk95) hA45
          simp only [clookup]
          rw [if_neg hkA, if_neg hk2A]
          exact hm k hk45
        · rw [swapUS_id hk95]

/-- The empty catalogue satisfies the alias invariant. -/
theorem aliasInv_nil : AliasInv [] :=
  fun _ _ => rfl

/-- Loading any sequence of unmixed description rows preserves the alias
invariant. -/
theorem loadFileRows_inv (rows : List (List (List Nat)))
    (hall : ∀ r ∈ rows, rowNoMix r = true) :
    ∀ m : Catalog, AliasInv m → AliasInv (loadFileRows rows m) := by
  induction rows with
  | nil => exact fun m hm => hm
  | cons r rs ih =>
    intro m hm
    show AliasInv (loadFileRows rs (loadRow m r))
    exact ih (fun x hx => hall x (List.mem_cons_of_mem r hx)) _
      (loadRow_inv hm (hall r (List.mem_cons_self r rs)))

/-- A binding present before an assignment is still present after it. -/
theorem clookup_isSome_cinsert {k : List Nat} {m : Catalog} (k2 v : List Nat)
    (h : (clookup k m).isSome = true) :
    (clookup k (cinsert k2 v m)).isSome = true := by
  show (if k = k2 then some v else clookup k m).isSome = true
  split_ifs with he
  · rfl
  · exact h

/-- An assignment makes its own key present. -/
theorem clookup_self_cinsert (k v : List Nat) (m : Catalog) :
    (clookup k (cinsert k v m)).isSome = true := by
  show (if k = k then some v else clookup k m).isSome = true
  rw [if_pos rfl]
  rfl

/-- A binding present before a description row is loaded is still present
after it. -/
theorem clookup_isSome_loadRow {k : List Nat} {m : Catalog} (r : List (List Nat))
    (h : (clookup k m).isSome = true) :
    (clookup k (loadRow m r)).isSome = true := by
  match r with
  | [] => exact h
  | [n] => exact h
  | [n, t] => exact h
  | n :: t :: c0 :: rest =>
    simp only [loadRow]
    split_ifs with h1 h2
    · exact clookup_isSome_cinsert _ _ (clookup_isSome_cinsert _ _ h)
    · exact clookup_isSome_cinsert _ _ (clookup_isSome_cinsert _ _ h)
    · exact clookup_isSome_cinsert _ _ h

/-- A binding present before a description file is loaded is still present
after it. -/
theorem clookup_isSome_loadFileRows (rows : List (List (List Nat))) :
    ∀ {m : Catalog} {k : List Nat}, (clookup k m).isSome = true →
      (clookup k (loadFileRows rows m)).isSome = true := by
  induction rows with
  | nil => exact fun h => h
  | cons r rs ih =>
    intro m k h
    show (clookup k (loadFileRows rs (loadRow m r))).isSome = true
    exact ih (clookup_isSome_loadRow r h)

/-- Loading a well-formed row binds the upper-cased field name. -/
theorem loadRow_self_isSome (m : Catalog) (n t c0 : List Nat)
    (rest : List (List Nat)) :
    (clookup (upStr (parseField n)) (loadRow m (n :: t :: c0 :: rest))).isSome =
      true := by
  simp only [loadRow]
  split_ifs with h1 h2
  · exact clookup_isSome_cinsert _ _ (clookup_self_cinsert _ _ _)
  · exact clookup_isSome_cinsert _ _ (clookup_self_cinsert _ _ _)
  · exact clookup_self_cinsert _ _ _

/-- Every well-formed description row leaves its upper-cased field name bound
in the final catalogue. -/
theorem loaded_name_isSome (rows : List (List (List Nat))) (n t c0 : List Nat)
    (rest : List (List Nat)) (hmem : (n :: t :: c0 :: rest) ∈ rows) (m : Catalog) :
    (clookup (upStr (parseField n)) (loadFileRows rows m)).isSome = true := by
  obtain ⟨l1, l2, hsplit⟩ := List.append_of_mem hmem
  subst hsplit
  show (clookup (upStr (parseField n))
    ((l1 ++ (n :: t :: c0 :: rest) :: l2).foldl loadRow m)).isSome = true
  rw [List.foldl_append, List.foldl_cons]
  exact clookup_isSome_loadFileRows l2 (loadRow_self_isSome _ _ _ _ _)

/-- C7 counterexample: after loading the field A_B_C as int and then the
mixed-separator field A_B-C as varchar, the underscore spelling of A_B_C
still reads int while its hyphen spelling reads varchar — the two lookups
are not identical, refuting the claim for every loaded field name. -/
theorem c7_mixed_name_counterexample :
    clookup (upStr (swapSU (codes "A_B_C")))
        (loadFileRows [[codes "A_B_C", codes "int", codes "d"],
          [codes "A_B-C", codes "varchar", codes "d"]] []) = some (codes "int") ∧
    clookup (upStr (swapUS (codes "A_B_C")))
        (loadFileRows [[codes "A_B_C", codes "int", codes "d"],
          [codes "A_B-C", codes "varchar", codes "d"]] []) = some (codes "varchar") ∧
    some (codes "int") ≠ some (codes "varchar") := by
  refine ⟨by decide, by decide, by decide⟩

/-- C7 amended: provided every loaded description row has a field name using
at most one of the two separators, looking any such name up under its
underscore spelling and under its hyphen spelling returns the identical
declared type; moreover the upper-cased exact name of every well-formed
loaded row is present in the catalogue. -/
theorem c7_catalog_alias (rows : List (List (List Nat)))
    (hall : ∀ r ∈ rows, rowNoMix r = true)
    (n : List Nat) (hmix : ¬ (95 ∈ n ∧ 45 ∈ n)) :
    (clookup (upStr (swapSU n)) (loadFileRows rows []) =
      clookup (upStr (swapUS n)) (loadFileRows rows [])) ∧
    ∀ (nm t c0 : List Nat) (rest : List (List Nat)),
      (nm :: t :: c0 :: rest) ∈ rows →
      (clookup (upStr (parseField nm)) (loadFileRows rows [])).isSome = true := by
  have hinv : AliasInv (loadFileRows rows []) :=
    loadFileRows_inv rows hall [] aliasInv_nil
  constructor
  · by_cases h45 : 45 ∈ n
    · have h95 : 95 ∉ n := fun h95 => hmix ⟨h95, h45⟩
      have hk45 : 45 ∉ upStr (swapSU n) := by
        intro hmem
        exact not_mem45_swapSU n ((mem45_upStr _).mp hmem)
      have h1 := hinv (upStr (swapSU n)) hk45
      rw [h1, ← upStr_swapUS, swapUS_swapSU h95, swapUS_id h95]
    · have hk45 : 45 ∉ upStr n := fun hmem => h45 ((mem45_upStr _).mp hmem)
      have h1 := hinv (upStr n) hk45
      rw [swapSU_id h45, h1, upStr_swapUS]
  · intro nm t c0 rest hmem
    exact loaded_name_isSome rows nm t c0 rest hmem []

/-- C7 amended witness: loading CU_NUMBER as int makes its underscore and
hyphen spellings agree, and the exact name is present. -/
theorem c7_catalog_alias_witness :
    (∀ r ∈ [[codes "CU_NUMBER", codes "int", codes "d"]], rowNoMix r = true) ∧
    ¬ (95 ∈ codes "CU_NUMBER" ∧ 45 ∈ codes "CU_NUMBER") ∧
    ((clookup (upStr (swapSU (codes "CU_NUMBER")))
        (loadFileRows [[codes "CU_NUMBER", codes "int", codes "d"]] []) =
      clookup (upStr (swapUS (codes "CU_NUMBER")))
        (loadFileRows [[codes "CU_NUMBER", codes "int", codes "d"]] [])) ∧
    ∀ (nm t c0 : List Nat) (rest : List (List Nat)),
      (nm :: t :: c0 :: rest) ∈ [[codes "CU_NUMBER", codes "int", codes "d"]] →
      (clookup (upStr (parseField nm))
        (loadFileRows [[codes "CU_NUMBER", codes "int", codes "d"]] [])).isSome =
        true) :=
  ⟨by decide, by decide,
    c7_catalog_alias [[codes "CU_NUMBER", codes "int", codes "d"]] (by decide)
      (codes "CU_NUMBER") (by decide)⟩

end Ncua
